import Mathlib

/-
Verification of the pycaret time-series forecasting experiment core
(`pycaret/time_series/forecasting/oop.py` and
`pycaret/internal/preprocess/time_series/forecasting/preprocessor.py`)
against its natural-language specification.

The Python code is shallowly embedded: pandas/numpy objects become lists
over abstract key and value types, Python exceptions become an `Except`
error taxonomy, and the in-place mutation of pandas objects inside `setup`
is made explicit through a small object heap.
-/

deriving instance DecidableEq for Except

namespace PyCaretTS

/-- Error taxonomy of the embedded functions, following the names used by
the specification for the ValueError/TypeError instances the source
raises. -/
inductive TSError where
  | invalidHorizon
  | invalidHorizonType
  | fhTypeError
  | missingHorizon
  | insufficientData
  | invalidFoldStrategy
  | unboundFoldGenerator
  | invalidConfig
  | invalidDataType
  | indexNotInData
  | indexCoercion
  | duplicateIndex
  | unresolvableSeasonality
  | provenanceMismatch
  | unexpectedKeyword (method kw : String)
deriving DecidableEq, Repr

/-! ## Horizon normalization (`_check_fh`, oop.py lines 231-271) -/

/-- Runtime type of the value passed to `_check_fh`: a Python `int`, a
`list` of ints, a numpy `ndarray` of ints, an sktime `ForecastingHorizon`
(whose offsets we record), or any other object. -/
inductive FHInput where
  | int (n : Int)
  | list (l : List Int)
  | array (l : List Int)
  | horizon (l : List Int)
  | other
deriving DecidableEq, Repr

/-- Embeds `TSForecastingExperiment._check_fh` (oop.py lines 254-271).
An int `n >= 1` becomes `np.arange(1, n + 1)`; an int `n < 1` raises a
ValueError (the spec's `InvalidHorizonError`); a list is converted with
`np.array(fh)` (contents unchanged); an ndarray or a ForecastingHorizon
passes through as is; any other type raises a ValueError about the type
(the spec's `InvalidHorizonTypeError`). The result is the list of
horizon offsets. -/
def check_fh : FHInput → Except TSError (List Int)
  | .int n =>
      if 1 ≤ n then
        .ok ((List.range n.toNat).map (fun (i : Nat) => (i : Int) + 1))
      else
        .error .invalidHorizon
  | .list l => .ok l
  | .array l => .ok l
  | .horizon l => .ok l
  | .other => .error .invalidHorizonType

/-! ## Fold generator construction (`get_fold_generator`, oop.py lines
3491-3567, integer `fold` with a named strategy) -/

/-- The cross-validation object built by `get_fold_generator`: an sktime
`ExpandingWindowSplitter` or `SlidingWindowSplitter` (both built with
`start_with_window=True`), or an externally supplied generator object. -/
inductive FoldGen where
  | expanding (initial_window step_length : Int) (fh : List Int)
  | sliding (step_length window_length : Int) (fh : List Int)
  | external (fh : List Int) (nSplits : Int)
deriving DecidableEq, Repr

/-- Embeds the integer-fold branch of `get_fold_generator` (oop.py lines
3528-3567): `fh_max_length = max(self.fh)` (numpy max raises on an empty
array), `step_length = len(self.fh)`,
`initial_window = y_size - ((fold - 1) * step_length + 1 * fh_max_length)`;
a non-positive initial window raises (the spec's `InsufficientDataError`);
`expanding`/`rolling` build an ExpandingWindowSplitter anchored at the
initial window, `sliding` builds a SlidingWindowSplitter whose window
length is the initial window; any other strategy leaves `fold_generator`
unbound (an UnboundLocalError at the return). -/
def get_fold_generator (y_size : Int) (fh : List Int) (fold : Int)
    (fold_strategy : String) : Except TSError FoldGen :=
  match fh with
  | [] => .error .invalidHorizon
  | f :: fs =>
      let fh_max_length := fs.foldl max f
      let step_length : Int := ((f :: fs).length : Int)
      let initial_window := y_size - ((fold - 1) * step_length + 1 * fh_max_length)
      if initial_window < 1 then
        .error .insufficientData
      else if fold_strategy = "expanding" ∨ fold_strategy = "rolling" then
        .ok (.expanding initial_window step_length (f :: fs))
      else if fold_strategy = "sliding" then
        .ok (.sliding step_length initial_window (f :: fs))
      else
        .error .unboundFoldGenerator

/-- The horizon `fh = [1..12]` of the spec's fold-window arithmetic
example (maximum offset 12, cardinality 12). -/
def fh_airline : List Int := [1, 2, 3, 4, 5, 6, 7, 8, 9, 10, 11, 12]

/-! ## Seasonality resolution (`_check_and_set_seasonal_period`, oop.py
lines 526-588) -/

/-- Embeds the candidate-selection core of `_check_and_set_seasonal_period`
(oop.py lines 572-585): each candidate period is tested with the external
`autocorrelation_seasonality_test` (an opaque boolean collaborator,
modelled as the function argument `test`); `all_sp_values` keeps the
candidates whose test is positive, defaulting to `[1]` when the filtered
list is empty (Python `or [1]`); the primary period is its first element.
Returns `(all_sp_values, primary_sp_to_use)`. -/
def resolve_seasonal_periods (periods : List Nat) (test : Nat → Bool) :
    List Nat × Nat :=
  let detected := periods.filter test
  let all_sp_values := if detected.isEmpty then [1] else detected
  (all_sp_values, all_sp_values.headD 1)

/-! ## Horizon and fold configuration during setup (`_check_and_set_fh`,
oop.py lines 470-524, and setup lines 1055-1075) -/

/-- The `fold_strategy` argument of setup: a named strategy (a Python
string) or an externally supplied sktime cross-validation object carrying
its own horizon (`fold_strategy.fh`, an ndarray of offsets) and its own
number of splits (`fold_strategy.get_n_splits(...)`). -/
inductive FoldStrategyInput where
  | named (s : String)
  | object (fh : List Int) (nSplits : Int)
deriving DecidableEq, Repr

/-- True for the runtime types the `elif` on oop.py line 505 rejects with
a TypeError: a present `fh` that is not an int, list or np.ndarray. -/
def fh_arg_bad_type : Option FHInput → Bool
  | some (.horizon _) => true
  | some .other => true
  | _ => false

/-- Embeds `_check_and_set_fh` (oop.py lines 470-524). A missing `fh`
with a string fold strategy raises (the spec's `MissingHorizonError`); a
present `fh` that is not an int, list or ndarray raises a TypeError; when
the fold strategy is not a string, `fh` is replaced by the strategy
object's own `fh` (ignoring the user value); finally `_check_fh`
normalizes the result. Returns the session horizon `self.fh`. -/
def check_and_set_fh (fh : Option FHInput) (fold_strategy : FoldStrategyInput) :
    Except TSError (List Int) :=
  match fh, fold_strategy with
  | none, .named _ => .error .missingHorizon
  | fhArg, strategy =>
      if fh_arg_bad_type fhArg then
        .error .fhTypeError
      else
        match strategy with
        | .object ofh _ => check_fh (.array ofh)
        | .named _ =>
            match fhArg with
            | some f => check_fh f
            | none => .error .missingHorizon

/-- The named time-series fold strategies accepted by setup
(oop.py line 1055). -/
def possible_time_series_fold_strategies : List String :=
  ["expanding", "sliding", "rolling"]

/-- The fold configuration a successful setup records: the session
horizon, `self.fold_param`, and `self.fold_generator`. -/
structure FoldSetup where
  fh : List Int
  fold_param : Int
  generator : FoldGen
deriving DecidableEq, Repr

/-- Embeds the horizon/fold portion of setup (oop.py line 1022 and lines
1055-1075): `_check_and_set_fh` runs first; then a named strategy must be
one of the known names (else a TypeError), `self.fold_param` is the user
fold count and the fold generator is built by `get_fold_generator`; an
object strategy is stored as the generator itself and `self.fold_param`
is taken from its `get_n_splits`. -/
def setup_folds (fh : Option FHInput) (fold : Int)
    (fold_strategy : FoldStrategyInput) (y_train_size : Int) :
    Except TSError FoldSetup := do
  let sessionFh ← check_and_set_fh fh fold_strategy
  match fold_strategy with
  | .named s =>
      if s ∈ possible_time_series_fold_strategies then do
        let gen ← get_fold_generator y_train_size sessionFh fold s
        pure ⟨sessionFh, fold, gen⟩
      else
        .error .invalidFoldStrategy
  | .object ofh n => pure ⟨sessionFh, n, .external ofh n⟩

/-! ## Prediction and training-index provenance (`predict_model`, oop.py
lines 2832-2980, and `_get_y_X_used_for_training`, lines 3781-3825) -/

/-- Which index set a fitted estimator was trained on. -/
inductive Provenance where
  | trainOnly
  | full
deriving DecidableEq, Repr

/-- The experiment state `predict_model` consults: the full target index
`self.y`, the train/test split point, the session horizon offsets
`self.fh`, and whether the session still has its test split attributes
(`hasattr(self, "X_test")`, false after saving and loading elsewhere).
Index keys are abstracted to naturals; the target values play no role in
the control flow being verified. -/
structure TSSession where
  y : List Nat
  trainLen : Nat
  fh : List Nat
  hasXTest : Bool
deriving DecidableEq, Repr

/-- The training prefix `self.y_train` of the split. -/
def TSSession.yTrain (s : TSSession) : List Nat := s.y.take s.trainLen

/-- The holdout suffix `self.y_test` of the split. -/
def TSSession.yTest (s : TSSession) : List Nat := s.y.drop s.trainLen

/-- A fitted sktime estimator, reduced to the index set of the target it
was trained on (`estimator._y.index`, after the period coercion of
`_get_cleaned_estimator_y_X`, which is the identity on our keys). -/
structure Estimator where
  trainedIdx : List Nat
deriving DecidableEq, Repr

/-- The estimator's cutoff: the last index key it was trained on, the
anchor for relative-horizon predictions. -/
def Estimator.cutoff (est : Estimator) : Nat := est.trainedIdx.getLastD 0

/-- Embeds `_get_y_X_used_for_training` (oop.py lines 3781-3825): the
estimator's training index is compared against `self.y_train` (length,
then elementwise) and then against `self.y`; a match selects the
train-only or the full data respectively, anything else raises. Returns
the provenance classification together with the selected index set. -/
def get_y_X_used_for_training (s : TSSession) (est : Estimator) :
    Except TSError (Provenance × List Nat) :=
  let ey := est.trainedIdx
  if ey.length = s.yTrain.length ∧ ey = s.yTrain then
    .ok (.trainOnly, s.yTrain)
  else if ey.length = s.y.length ∧ ey = s.y then
    .ok (.full, s.y)
  else
    .error .provenanceMismatch

/-- What the embedded `predict_model` reports: the index keys of the
returned predictions, the provenance classification made inside the
metrics block (`none` when that block is skipped), whether holdout
metrics were actually computed against overlapping test indices, and
whether the score grid was displayed. -/
structure PredictOutput where
  predIndex : List Nat
  provenance : Option Provenance
  holdoutMetricsComputed : Bool
  metricsDisplayed : Bool
deriving DecidableEq, Repr

/-- Embeds `predict_model` (oop.py lines 2832-2980). The clone of the
estimator predicts over the effective horizon (the caller's `fh` if
given, else the session horizon), whose predicted index keys sit at
cutoff + offset; `loaded_in_same_env` (and display) is cleared when the
session lacks `X_test` or the caller supplied `fh`; inside the metrics
block the provenance of the estimator is derived, a length mismatch with
`y_test` suppresses display, `pd.concat` + `dropna` keeps the indices
common to the predictions and `y_test`, and an empty overlap replaces all
metrics by NaN and suppresses display; only a non-empty overlap computes
holdout metrics. The predictions themselves are returned in every
non-raising path. -/
def predict_model (s : TSSession) (est : Estimator) (fhArg : Option (List Nat))
    (verbose : Bool) : Except TSError PredictOutput :=
  let loaded_in_same_env := s.hasXTest && fhArg.isNone
  let verbose1 := verbose && loaded_in_same_env
  let fh := fhArg.getD s.fh
  let predIndex := fh.map (fun o => est.cutoff + o)
  if loaded_in_same_env then do
    let (prov, _y_train) ← get_y_X_used_for_training s est
    let verbose2 := verbose1 && (predIndex.length == s.yTest.length)
    let common := predIndex.filter (fun k => k ∈ s.yTest)
    if common.isEmpty then
      .ok ⟨predIndex, some prov, false, false⟩
    else
      .ok ⟨predIndex, some prov, true, verbose2⟩
  else
    .ok ⟨predIndex, none, false, false⟩

/-! ## Data intake (`_check_and_clean_data`, oop.py lines 273-311, and
`_check_and_clean_index`, lines 383-468) -/

/-- A pandas column label: a string or a non-string scalar (abstracted to
an integer), which `str(x)` coerces to its decimal rendering. -/
inductive ColLabel where
  | str (s : String)
  | num (n : Int)
deriving DecidableEq, Repr

/-- Python `str(...)` on a column label. -/
def ColLabel.asString : ColLabel → String
  | .str s => s
  | .num n => toString n

/-- A pandas DataFrame, reduced to what the intake code inspects: the
index keys (naturals standing for arbitrary hashable index values, and
for datetime/period keys after coercion), the labelled columns of
(abstract integer) values, and whether the index is one of the temporal
types `pd.PeriodIndex`/`pd.DatetimeIndex`. -/
structure Frame where
  index : List Nat
  cols : List (ColLabel × List Int)
  indexTemporal : Bool
deriving DecidableEq, Repr

/-- Column lookup `data[name]` for a string label. -/
def Frame.findCol (t : Frame) (name : String) : Option (List Int) :=
  (t.cols.find? (fun c => c.1 == ColLabel.str name)).map Prod.snd

/-- The columns left after `set_index(name)` removes column `name`. -/
def Frame.dropCol (t : Frame) (name : String) : List (ColLabel × List Int) :=
  t.cols.filter (fun c => !(c.1 == ColLabel.str name))

/-- Embeds `_check_and_clean_index` (oop.py lines 383-468). When an index
column name is given it must exist; its values are coerced with
`pd.to_datetime` (the abstract `toDatetime` map into datetime keys), and
a coercion that turns a duplicate-free column into one with duplicates
raises (the spec's `IndexCoercionError`) before `set_index` promotes the
coerced column. The resulting index must be duplicate-free (the spec's
`DuplicateIndexError`); a non-temporal index without a seasonal-period
hint raises (the spec's `UnresolvableSeasonalityError`); finally a
datetime index is converted to periods, the identity on our keys. -/
def check_and_clean_index (t : Frame) (toDatetime : Int → Nat)
    (index : Option String) (seasonal_period : Option Nat) :
    Except TSError Frame := do
  let t ← match index with
    | none => pure t
    | some name =>
        match t.findCol name with
        | none => .error .indexNotInData
        | some vals =>
            let unique_index_before := vals.Nodup
            let coerced := vals.map toDatetime
            let unique_index_after := coerced.Nodup
            if unique_index_before ∧ ¬ unique_index_after then
              .error .indexCoercion
            else
              pure { index := coerced, cols := t.dropCol name, indexTemporal := true }
  if ¬ t.index.Nodup then
    .error .duplicateIndex
  else if ¬ t.indexTemporal ∧ seasonal_period = none then
    .error .unresolvableSeasonality
  else
    pure t

/-- A pandas Series, reduced to its optional name, index keys, values and
index type, as consumed by `_check_and_clean_data`. -/
structure Series where
  name : Option String
  index : List Nat
  vals : List Int
  indexTemporal : Bool
deriving DecidableEq, Repr

/-- A Python object reaching setup's `data` argument: a pandas Series, a
pandas DataFrame, or anything else (rejected). -/
inductive PyObj where
  | series (s : Series)
  | frame (f : Frame)
  | other
deriving DecidableEq, Repr

/-- The object heap that makes pandas aliasing and in-place mutation
explicit: references are positions in the list, reading an unallocated
reference defaults to an arbitrary object. -/
abbrev Heap := List PyObj

/-- Allocation of a fresh object, returning the extended heap and the new
reference. -/
def heapAlloc (h : Heap) (v : PyObj) : Heap × Nat := (h ++ [v], h.length)

/-- Embeds `_check_and_clean_data` (oop.py lines 273-311) over the heap:
a non-pandas object raises; otherwise `data.copy()` allocates a deep copy
and every subsequent mutation (defaulting the series name, the fresh
frame produced by `pd.DataFrame(data_)`, the coercion of column labels to
strings) targets only the copy or the fresh frame, never the argument
object. Returns the reference holding the cleaned frame. -/
def check_and_clean_data_heap (h : Heap) (r : Nat) :
    Heap × Except TSError Nat :=
  match h.getD r .other with
  | .other => (h, .error .invalidDataType)
  | .series s =>
      let (h1, r1) := heapAlloc h (.series s)
      let name := s.name.getD "Time Series"
      let h2 := h1.set r1 (.series { s with name := some name })
      let f : Frame := { index := s.index,
                         cols := [(ColLabel.str name, s.vals)],
                         indexTemporal := s.indexTemporal }
      let (h3, r2) := heapAlloc h2 (.frame f)
      let f1 : Frame := { f with
        cols := f.cols.map (fun c => (ColLabel.str c.1.asString, c.2)) }
      (h3.set r2 (.frame f1), .ok r2)
  | .frame f =>
      let (h1, r1) := heapAlloc h (.frame f)
      let f1 : Frame := { f with
        cols := f.cols.map (fun c => (ColLabel.str c.1.asString, c.2)) }
      (h1.set r1 (.frame f1), .ok r1)

/-- The heap form of `_check_and_clean_index`: the function mutates the
frame it is given in place (`data[index] = ...`, `set_index(...,
inplace=True)`, `data.index = data.index.to_period()`), so every write --
including the partial writes of a failing run -- targets the reference it
was passed and no other cell. -/
def check_and_clean_index_heap (h : Heap) (r : Nat) (toDatetime : Int → Nat)
    (index : Option String) (seasonal_period : Option Nat) :
    Heap × Except TSError Unit :=
  match h.getD r .other with
  | .frame f =>
      match check_and_clean_index f toDatetime index seasonal_period with
      | .ok f1 => (h.set r (.frame f1), .ok ())
      | .error e => (h.set r (.frame f), .error e)
  | _ => (h, .error .invalidDataType)

/-- Embeds the data-intake prefix of setup (oop.py lines 983-1008): line
984 copies the caller's data (`data_ = data.copy()`), line 1003 rebinds
`data_` to the cleaned copy produced by `_check_and_clean_data(data)`
(which itself copies the original), and line 1006 cleans the index of
that copy in place. Returns the final heap together with the reference to
the cleaned data or the setup error. -/
def setup_intake (h : Heap) (r : Nat) (toDatetime : Int → Nat)
    (index : Option String) (seasonal_period : Option Nat) :
    Heap × Except TSError Nat :=
  let (h1, _rcopy) := heapAlloc h (h.getD r .other)
  match check_and_clean_data_heap h1 r with
  | (h2, .error e) => (h2, .error e)
  | (h2, .ok r1) =>
      match check_and_clean_index_heap h2 r1 toDatetime index seasonal_period with
      | (h3, .ok _) => (h3, .ok r1)
      | (h3, .error e) => (h3, .error e)

/-! ## Preprocessing step builders (`TSForecastingPreprocessor`,
preprocessor.py, and the preprocessing block of setup, oop.py lines
1103-1152) -/

/-- The value carried by a constant-fill imputer: the Python int or float
the caller supplied (floats abstracted as rationals). -/
inductive ImputeVal where
  | ivInt (n : Int)
  | ivFloat (q : Rat)
deriving DecidableEq, Repr

/-- A configured sktime imputation unit: a named-method imputer
(`Imputer(method=..., random_state=self.seed)`) or a constant-fill
imputer (`Imputer(method="constant", value=...)`). -/
inductive Imputer where
  | method (m : String) (seed : Int)
  | constant (v : ImputeVal)
deriving DecidableEq, Repr

/-- The runtime type of the `numeric_imputation` selector: a string, an
int, a float, or any disallowed type. -/
inductive NumericImputation where
  | str (s : String)
  | int (n : Int)
  | float (q : Rat)
  | otherType
deriving DecidableEq, Repr

/-- The named imputation selectors accepted by `_add_imputation_steps`
(preprocessor.py lines 83-94). -/
def allowed_imputation_values : List String :=
  ["drift", "linear", "nearest", "mean", "median", "backfill", "bfill",
   "pad", "ffill", "random"]

/-- The per-channel pipeline step lists `self.pipe_steps_target` and
`self.pipe_steps_exogenous` accumulated by the step builders. -/
structure PipeSteps where
  target : List (String × Imputer)
  exogenous : List (String × Imputer)
deriving DecidableEq, Repr

/-- Embeds `_add_imputation_steps` (preprocessor.py lines 54-110): a
string selector must be one of the allowed names and yields a
named-method imputer seeded with `self.seed`; an int or float selector
yields a constant-fill imputer with that value; anything else raises
(the spec's `InvalidConfigError`). On success exactly one
`("numerical_imputer", ...)` step is appended to the requested channel. -/
def add_imputation_steps (st : PipeSteps) (seed : Int)
    (numeric_imputation : NumericImputation) (target : Bool) :
    Except TSError PipeSteps := do
  let num_estimator ← match numeric_imputation with
    | .str s =>
        if s ∈ allowed_imputation_values then
          pure (Imputer.method s seed)
        else
          Except.error .invalidConfig
    | .int n => pure (Imputer.constant (.ivInt n))
    | .float q => pure (Imputer.constant (.ivFloat q))
    | .otherType => Except.error .invalidConfig
  if target then
    pure { st with target := st.target ++ [("numerical_imputer", num_estimator)] }
  else
    pure { st with exogenous := st.exogenous ++ [("numerical_imputer", num_estimator)] }

/-- Formal parameter names of `TSForecastingPreprocessor._imputation`
(preprocessor.py lines 32-37). -/
def imputation_params : List String :=
  ["numeric_imputation_target", "numeric_imputation_exogenous",
   "exogenous_present"]

/-- Formal parameter names of `TSForecastingPreprocessor._transformation`
(preprocessor.py lines 112-117). -/
def transformation_params : List String :=
  ["transform_target", "transform_exogenous", "exogenous_present"]

/-- Formal parameter names of `TSForecastingPreprocessor._scaling`
(preprocessor.py lines 198-203). -/
def scaling_params : List String :=
  ["scale_target", "scale_exogenous", "exogenous_present"]

/-- Python keyword binding for a method without a kwargs catch-all: the
call succeeds only when every supplied keyword names a formal parameter;
otherwise it raises a TypeError about the first unexpected keyword. -/
def bind_keywords (method : String) (params : List String)
    (kwargs : List String) : Except TSError Unit :=
  match kwargs.find? (fun k => !(params.contains k)) with
  | some k => .error (.unexpectedKeyword method k)
  | none => .ok ()

/-- The target-channel preprocessing options of setup relevant here. -/
structure TargetPreprocessConfig where
  numeric_imputation_target : Option NumericImputation
  transform_target : Option String
  scale_target : Option String
deriving Repr

/-- Embeds the preprocessing block of setup (oop.py lines 1103-1152) for
the univariate (no exogenous variables) case: the step lists start empty;
with `preprocess=True` setup calls
`self._imputation(numeric_imputation=..., target=True)` (line 1112),
`self._transformation(transform=..., target=True)` (line 1126) and
`self._scaling(scale=..., target=True)` (line 1136), each resolved by
keyword binding against the formal parameters of
`TSForecastingPreprocessor._imputation` / `_transformation` / `_scaling`.
Because every one of these keyword sets fails to bind, the helper bodies
(which would append the steps) are unreachable from setup; a successful
run therefore returns the step lists accumulated so far. -/
def setup_preprocessing (preprocess : Bool) (cfg : TargetPreprocessConfig) :
    Except TSError PipeSteps := do
  let steps : PipeSteps := ⟨[], []⟩
  if !preprocess then
    return steps
  if cfg.numeric_imputation_target.isSome then
    bind_keywords "_imputation" imputation_params
      ["numeric_imputation", "target"]
  if cfg.transform_target.isSome then
    bind_keywords "_transformation" transformation_params
      ["transform", "target"]
  if cfg.scale_target.isSome then
    bind_keywords "_scaling" scaling_params ["scale", "target"]
  return steps

/-! ## Theorems -/

/-- C3 counterexample: the claim states that any input that is not an
int, list, or array fails with InvalidHorizonTypeError, but `_check_fh`
also accepts an sktime ForecastingHorizon and passes it through without
failing. -/
theorem check_fh_horizon_passthrough_counterexample :
    check_fh (.horizon [1, 2]) = .ok [1, 2] := by decide

/-- C3 (amended): horizon normalization is idempotent and total on valid
inputs: for every integer n >= 1, normalizing n yields the offsets 1..n
and normalizing that result again as a list (or array) yields the same
offsets; for every integer n < 1 normalization fails with
InvalidHorizonError; an sktime ForecastingHorizon passes through
unchanged; and any other input type fails with
InvalidHorizonTypeError. -/
theorem check_fh_idempotent :
    (∀ n : Int, 1 ≤ n →
      check_fh (.int n) = .ok ((List.range n.toNat).map (fun (i : Nat) => (i : Int) + 1)) ∧
      check_fh (.list ((List.range n.toNat).map (fun (i : Nat) => (i : Int) + 1))) =
        .ok ((List.range n.toNat).map (fun (i : Nat) => (i : Int) + 1)) ∧
      check_fh (.array ((List.range n.toNat).map (fun (i : Nat) => (i : Int) + 1))) =
        .ok ((List.range n.toNat).map (fun (i : Nat) => (i : Int) + 1))) ∧
    (∀ n : Int, n < 1 → check_fh (.int n) = .error .invalidHorizon) ∧
    (∀ l : List Int, check_fh (.horizon l) = .ok l) ∧
    check_fh .other = .error .invalidHorizonType := by
  refine ⟨fun n hn => ⟨?_, rfl, rfl⟩, fun n hn => ?_, fun l => rfl, rfl⟩
  · simp [check_fh, if_pos hn]
  · simp [check_fh, if_neg (by omega : ¬ 1 ≤ n)]

/-- C3 witness: the amended theorem applied at n = 3. -/
theorem check_fh_idempotent_witness :
    check_fh (.int 3) = .ok [1, 2, 3] ∧ check_fh (.list [1, 2, 3]) = .ok [1, 2, 3] := by
  have h := check_fh_idempotent.1 3 (by norm_num)
  exact ⟨h.1.trans (by decide), h.2.1.trans (by decide)⟩

/-- C4 counterexample: the claim states every horizon accepted by the
horizon check is non-empty with strictly positive offsets, including
horizons supplied as lists; but `_check_fh` accepts the list [0] (a zero
offset) and the empty list without any validation. -/
theorem check_fh_accepts_zero_offset_counterexample :
    check_fh (.list [0]) = .ok [0] ∧ ¬ (0 : Int) > 0 ∧
    check_fh (.list []) = .ok [] := by decide

/-- C4 (amended): a forecast horizon accepted from a single-integer input
satisfies the data-model invariant (non-empty, every offset strictly
positive, no zero offset); horizons supplied as lists or arrays are used
as-is without this validation and may violate the invariant. -/
theorem check_fh_int_invariant (n : Int) (l : List Int)
    (h : check_fh (.int n) = .ok l) : l ≠ [] ∧ ∀ x ∈ l, 0 < x := by
  by_cases hn : 1 ≤ n
  · simp only [check_fh, if_pos hn, Except.ok.injEq] at h
    subst h
    constructor
    · intro hnil
      have hlen := congrArg List.length hnil
      simp only [List.length_map, List.length_range, List.length_nil] at hlen
      omega
    · intro x hx
      simp only [List.mem_map, List.mem_range] at hx
      obtain ⟨i, -, rfl⟩ := hx
      omega
  · simp [check_fh, if_neg hn] at h

/-- C4 witness: the amended theorem applied at n = 3. -/
theorem check_fh_int_invariant_witness :
    [1, 2, 3] ≠ ([] : List Int) ∧ ∀ x ∈ [(1 : Int), 2, 3], 0 < x :=
  check_fh_int_invariant 3 [1, 2, 3] (by decide)

/-- C1: for training length N, a non-empty horizon with maximum offset H
(the fold of max) and cardinality L, and fold count F, the fold-generator
builder computes initial_window = N - ((F-1)*L + H); a window below 1
fails with InsufficientDataError; otherwise expanding/rolling yield an
expanding-window generator anchored at the initial window and sliding a
fixed-window generator of that length, all with step length L; in
particular N=100, fh=[1..12] gives window 64 for F=3, window 4 for F=8,
and failure for F=9. -/
theorem get_fold_generator_spec :
    (∀ (N F f : Int) (fs : List Int),
      (N - ((F - 1) * ((f :: fs).length : Int) + fs.foldl max f) < 1 →
        get_fold_generator N (f :: fs) F "expanding" = .error .insufficientData ∧
        get_fold_generator N (f :: fs) F "rolling" = .error .insufficientData ∧
        get_fold_generator N (f :: fs) F "sliding" = .error .insufficientData) ∧
      (1 ≤ N - ((F - 1) * ((f :: fs).length : Int) + fs.foldl max f) →
        get_fold_generator N (f :: fs) F "expanding" =
          .ok (.expanding (N - ((F - 1) * ((f :: fs).length : Int) + fs.foldl max f))
            ((f :: fs).length : Int) (f :: fs)) ∧
        get_fold_generator N (f :: fs) F "rolling" =
          .ok (.expanding (N - ((F - 1) * ((f :: fs).length : Int) + fs.foldl max f))
            ((f :: fs).length : Int) (f :: fs)) ∧
        get_fold_generator N (f :: fs) F "sliding" =
          .ok (.sliding ((f :: fs).length : Int)
            (N - ((F - 1) * ((f :: fs).length : Int) + fs.foldl max f)) (f :: fs)))) ∧
    get_fold_generator 100 fh_airline 3 "expanding" = .ok (.expanding 64 12 fh_airline) ∧
    get_fold_generator 100 fh_airline 8 "expanding" = .ok (.expanding 4 12 fh_airline) ∧
    get_fold_generator 100 fh_airline 9 "expanding" = .error .insufficientData := by
  refine ⟨fun N F f fs => ⟨fun hW => ?_, fun hW => ?_⟩, by decide, by decide, by decide⟩
  · have hW1 : N - ((F - 1) * ((f :: fs).length : Int) + 1 * fs.foldl max f) < 1 := by
      rw [one_mul]; exact hW
    refine ⟨?_, ?_, ?_⟩ <;> (simp only [get_fold_generator]; rw [if_pos hW1])
  · have hW1 : ¬ N - ((F - 1) * ((f :: fs).length : Int) + 1 * fs.foldl max f) < 1 := by
      rw [one_mul]; omega
    refine ⟨?_, ?_, ?_⟩ <;> (simp only [get_fold_generator]; rw [if_neg hW1]; simp)

/-- C1 witness: the quantified part applied at N = 10, fh = [1], F = 2,
where the initial window 10 - ((2-1)*1 + 1) = 8 is valid. -/
theorem get_fold_generator_spec_witness :
    get_fold_generator 10 [1] 2 "sliding" = .ok (.sliding 1 8 [1]) := by
  have h := (get_fold_generator_spec.1 10 2 1 []).2 (by decide)
  exact h.2.2.trans (by decide)

/-- Helper: a successful find? determines the head of filter. -/
theorem head_filter_of_find? {l : List Nat} {test : Nat → Bool} {p : Nat}
    (h : l.find? test = some p) :
    l.filter test ≠ [] ∧ (l.filter test).headD 1 = p := by
  induction l with
  | nil => simp at h
  | cons a t ih =>
    by_cases ha : test a
    · rw [List.find?_cons_of_pos _ ha] at h
      injection h with h
      subst h
      simp [List.filter_cons_of_pos ha]
    · rw [List.find?_cons_of_neg _ (by simpa using ha)] at h
      simpa [List.filter_cons_of_neg (by simpa using ha)] using ih h

/-- C9: when the seasonality test is negative for every candidate period
the resolver returns detected periods [1] with primary period 1;
otherwise the detected list is the positively tested candidates and the
primary period is the first candidate whose test is positive. -/
theorem resolve_seasonal_periods_spec :
    (∀ (periods : List Nat) (test : Nat → Bool),
      (∀ p ∈ periods, test p = false) →
      resolve_seasonal_periods periods test = ([1], 1)) ∧
    (∀ (periods : List Nat) (test : Nat → Bool) (p : Nat),
      periods.find? test = some p →
      (resolve_seasonal_periods periods test).1 = periods.filter test ∧
      (resolve_seasonal_periods periods test).2 = p) := by
  constructor
  · intro periods test h
    have hf : periods.filter test = [] :=
      List.filter_eq_nil_iff.mpr (fun a ha => by simp [h a ha])
    simp [resolve_seasonal_periods, hf]
  · intro periods test p hp
    obtain ⟨hne, hhead⟩ := head_filter_of_find? hp
    have hnotempty : (periods.filter test).isEmpty = false := by
      simpa [List.isEmpty_iff] using hne
    constructor
    · simp [resolve_seasonal_periods, hnotempty]
    · simp [resolve_seasonal_periods, hnotempty, hp]

/-- C9 witness: the theorem applied to the single candidate 12 whose test
is negative, and to candidates [3, 12] where only 12 tests positive. -/
theorem resolve_seasonal_periods_spec_witness :
    resolve_seasonal_periods [12] (fun _ => false) = ([1], 1) ∧
    (resolve_seasonal_periods [3, 12] (fun q => q == 12)).2 = 12 := by
  refine ⟨resolve_seasonal_periods_spec.1 [12] (fun _ => false) (by simp), ?_⟩
  exact (resolve_seasonal_periods_spec.2 [3, 12] (fun q => q == 12) 12 (by decide)).2

/-- C7: when the fold strategy given to setup is an external
fold-generator object, the session horizon and fold count come from that
object, overriding any user-supplied fh (of the parameter's accepted
types) and fold without an error; when the fold strategy is a named
string and fh is None, setup fails with MissingHorizonError. -/
theorem setup_folds_object_override_and_missing_horizon :
    (∀ (fh : Option FHInput) (fold : Int) (ofh : List Int) (n : Int)
        (y_train_size : Int),
      fh_arg_bad_type fh = false →
      setup_folds fh fold (.object ofh n) y_train_size =
        .ok ⟨ofh, n, .external ofh n⟩) ∧
    (∀ (s : String) (fold y_train_size : Int),
      setup_folds none fold (.named s) y_train_size = .error .missingHorizon) := by
  constructor
  · intro fh fold ofh n ysz hbad
    cases fh with
    | none => rfl
    | some f =>
      cases f <;> first
        | rfl
        | simp [fh_arg_bad_type] at hbad
  · intro s fold ysz
    rfl

/-- C2: after training on train-only data and finalizing (so the
estimator's training index equals the full-data index), predict_model
with no explicit horizon classifies the estimator's training index set as
the full-data index set, computes and displays no holdout metrics, and
still succeeds, returning one prediction per horizon offset. The
hypotheses state that the session is live (it has X_test), the test split
is non-empty, the session horizon offsets are positive (as every horizon
derived from an integer fh is), and the index keys are bounded by the
last key. -/
theorem predict_model_finalized_provenance (s : TSSession) (est : Estimator)
    (hX : s.hasXTest = true)
    (hsplit : s.trainLen < s.y.length)
    (hfin : est.trainedIdx = s.y)
    (hpos : ∀ o ∈ s.fh, 1 ≤ o)
    (hmax : ∀ k ∈ s.y, k ≤ s.y.getLastD 0) :
    predict_model s est none true =
      .ok ⟨s.fh.map (fun o => est.cutoff + o), some .full, false, false⟩ := by
  have hytrainlen : s.yTrain.length = s.trainLen := by
    simp [TSSession.yTrain]
    omega
  have hprov : get_y_X_used_for_training s est = .ok (.full, s.y) := by
    unfold get_y_X_used_for_training
    rw [if_neg, if_pos ⟨by rw [hfin], hfin⟩]
    rintro ⟨hlen, -⟩
    rw [hfin, hytrainlen] at hlen
    omega
  have hcutoff : est.cutoff = s.y.getLastD 0 := by
    simp [Estimator.cutoff, hfin]
  have hcommon :
      (s.fh.map (fun o => est.cutoff + o)).filter (fun k => k ∈ s.yTest) = [] := by
    rw [List.filter_eq_nil_iff]
    intro k hk
    simp only [List.mem_map] at hk
    obtain ⟨o, ho, rfl⟩ := hk
    simp only [decide_eq_true_eq]
    intro hmem
    have h1 : est.cutoff + o ∈ s.y :=
      (List.drop_suffix s.trainLen s.y).subset hmem
    have h2 := hmax _ h1
    have h3 := hpos o ho
    omega
  simp [predict_model, hX, hprov, hcommon, Bind.bind, Except.bind]

/-- C2 witness: the theorem applied to a session over index keys
[0, 1, 2, 3] with train length 3, horizon offsets [1, 2], and an
estimator finalized on the full index. -/
theorem predict_model_finalized_provenance_witness :
    predict_model ⟨[0, 1, 2, 3], 3, [1, 2], true⟩ ⟨[0, 1, 2, 3]⟩ none true =
      .ok ⟨[4, 5], some .full, false, false⟩ := by
  have h := predict_model_finalized_provenance ⟨[0, 1, 2, 3], 3, [1, 2], true⟩
    ⟨[0, 1, 2, 3]⟩ rfl (by decide) rfl (by decide) (by decide)
  exact h.trans (by decide)

/-- C7 witness: the theorem applied to an external object with horizon
[2, 4] and 3 splits, overriding a user fh of 5 and fold of 7, and to the
named strategy case without fh. -/
theorem setup_folds_object_override_witness :
    setup_folds (some (.int 5)) 7 (.object [2, 4] 3) 100 =
      .ok ⟨[2, 4], 3, .external [2, 4] 3⟩ ∧
    setup_folds none 3 (.named "expanding") 100 = .error .missingHorizon := by
  refine ⟨setup_folds_object_override_and_missing_horizon.1
    (some (.int 5)) 7 [2, 4] 3 100 (by decide), ?_⟩
  exact setup_folds_object_override_and_missing_horizon.2 "expanding" 3 100

/-- Helper: a successful run of the duplicate-index / index-type tail of
the index cleaning yields a duplicate-free index. -/
theorem clean_index_tail_ok {t t2 : Frame} {sp2 : Option Nat}
    (h : (if ¬ t.index.Nodup then Except.error TSError.duplicateIndex
          else if ¬ t.indexTemporal = true ∧ sp2 = none then
            Except.error TSError.unresolvableSeasonality
          else pure t) = Except.ok t2) : t2.index.Nodup := by
  by_cases hd : t.index.Nodup
  · rw [if_neg (not_not_intro hd)] at h
    by_cases hts : ¬ t.indexTemporal = true ∧ sp2 = none
    · rw [if_pos hts] at h
      simp at h
    · rw [if_neg hts] at h
      obtain rfl : t = t2 := by simpa [pure, Except.pure] using h
      exact hd
  · rw [if_pos hd] at h
    simp at h

/-- C5: for a table whose designated index column exists and has no
duplicate values, a datetime coercion that collapses two distinct values
into one key makes the index cleaning fail with IndexCoercionError rather
than proceed; any successful run of the index cleaning (with or without a
designated column) yields a duplicate-free index; and a pre-existing
non-unique index always fails with DuplicateIndexError. -/
theorem check_and_clean_index_coercion_safety (t : Frame) (toD : Int → Nat)
    (name : String) (vals : List Int) (sp : Option Nat)
    (hcol : t.findCol name = some vals) (hnodup : vals.Nodup) :
    (¬ (vals.map toD).Nodup →
      check_and_clean_index t toD (some name) sp = .error .indexCoercion) ∧
    (∀ (t3 : Frame) (idx : Option String) (sp2 : Option Nat) (t2 : Frame),
      check_and_clean_index t3 toD idx sp2 = .ok t2 → t2.index.Nodup) ∧
    (∀ (t3 : Frame) (sp2 : Option Nat), ¬ t3.index.Nodup →
      check_and_clean_index t3 toD none sp2 = .error .duplicateIndex) := by
  refine ⟨fun h1 => ?_, fun t3 idx sp2 t2 h => ?_, fun t3 sp2 hdup => ?_⟩
  · simp only [check_and_clean_index, hcol]
    rw [if_pos ⟨hnodup, h1⟩]
    rfl
  · unfold check_and_clean_index at h
    cases idx with
    | none =>
      simp only [Bind.bind, Except.bind, pure, Except.pure] at h
      exact clean_index_tail_ok h
    | some nm =>
      simp only [Bind.bind, Except.bind, pure, Except.pure] at h
      split at h
      · simp at h
      · split at h
        · simp at h
        · split at h
          next => simp at h
          next hdup2 =>
            split at h
            next => simp at h
            next =>
              obtain rfl : _ = t2 := by simpa using h
              simpa using hdup2
  · simp [check_and_clean_index, Bind.bind, Except.bind, pure, Except.pure,
      if_pos hdup]

/-- C5 witness: the theorem applied to a table with a duplicate-free
index column [2, 3] whose coercion collapses both values to the key 1. -/
theorem check_and_clean_index_coercion_safety_witness :
    check_and_clean_index ⟨[9], [(ColLabel.str "date", [2, 3])], false⟩
      (fun v => (v / 2).toNat) (some "date") none = .error .indexCoercion :=
  (check_and_clean_index_coercion_safety
    ⟨[9], [(ColLabel.str "date", [2, 3])], false⟩ (fun v => (v / 2).toNat)
    "date" [2, 3] none (by decide) (by decide)).1 (by decide)

/-- C8: the imputation step builder accepts exactly the ten named
selectors, builds a constant-fill imputer for any int or float selector,
raises InvalidConfigError for an unknown string or a disallowed type
without appending a step, and on success appends exactly one imputer step
to the requesting channel, leaving the other channel unchanged. -/
theorem add_imputation_steps_spec :
    (∀ (st : PipeSteps) (seed : Int) (s : String) (tgt : Bool),
      s ∈ allowed_imputation_values →
      add_imputation_steps st seed (.str s) tgt = .ok
        (if tgt then
          { st with target :=
              st.target ++ [("numerical_imputer", Imputer.method s seed)] }
        else
          { st with exogenous :=
              st.exogenous ++ [("numerical_imputer", Imputer.method s seed)] })) ∧
    (∀ (st : PipeSteps) (seed : Int) (s : String) (tgt : Bool),
      s ∉ allowed_imputation_values →
      add_imputation_steps st seed (.str s) tgt = .error .invalidConfig) ∧
    (∀ (st : PipeSteps) (seed n : Int) (tgt : Bool),
      add_imputation_steps st seed (.int n) tgt = .ok
        (if tgt then
          { st with target :=
              st.target ++ [("numerical_imputer", Imputer.constant (.ivInt n))] }
        else
          { st with exogenous :=
              st.exogenous ++ [("numerical_imputer", Imputer.constant (.ivInt n))] })) ∧
    (∀ (st : PipeSteps) (seed : Int) (q : Rat) (tgt : Bool),
      add_imputation_steps st seed (.float q) tgt = .ok
        (if tgt then
          { st with target :=
              st.target ++ [("numerical_imputer", Imputer.constant (.ivFloat q))] }
        else
          { st with exogenous :=
              st.exogenous ++ [("numerical_imputer", Imputer.constant (.ivFloat q))] })) ∧
    (∀ (st : PipeSteps) (seed : Int) (tgt : Bool),
      add_imputation_steps st seed .otherType tgt = .error .invalidConfig) := by
  refine ⟨fun st seed s tgt hs => ?_, fun st seed s tgt hs => ?_,
    fun st seed n tgt => ?_, fun st seed q tgt => ?_, fun st seed tgt => ?_⟩
  · cases tgt <;>
      simp [add_imputation_steps, hs, Bind.bind, Except.bind, pure, Except.pure]
  · cases tgt <;>
      simp [add_imputation_steps, hs, Bind.bind, Except.bind]
  · cases tgt <;>
      simp [add_imputation_steps, Bind.bind, Except.bind, pure, Except.pure]
  · cases tgt <;>
      simp [add_imputation_steps, Bind.bind, Except.bind, pure, Except.pure]
  · cases tgt <;>
      simp [add_imputation_steps, Bind.bind, Except.bind]

/-- C8 witness: the theorem applied to the selector "mean" on the target
channel (steps appended), and to the int selector 5 on the exogenous
channel. -/
theorem add_imputation_steps_spec_witness :
    add_imputation_steps ⟨[], []⟩ 42 (.str "mean") true =
      .ok ⟨[("numerical_imputer", .method "mean" 42)], []⟩ ∧
    add_imputation_steps ⟨[], []⟩ 42 (.int 5) false =
      .ok ⟨[], [("numerical_imputer", .constant (.ivInt 5))]⟩ := by
  constructor
  · exact (add_imputation_steps_spec.1 ⟨[], []⟩ 42 "mean" true
      (by decide)).trans (by decide)
  · exact ((add_imputation_steps_spec.2.2.1 ⟨[], []⟩ 42 5 false)).trans (by decide)

/-- C6 (code bug): with preprocessing enabled and the target
configuration imputation "mean", transform "log", scale "zscore", the
claim expects setup to succeed and assemble the target step list in the
order [imputation, transform, scale]; but setup passes the keyword
arguments of the helper _add_imputation_steps to the wrapper _imputation,
whose signature has no parameter named numeric_imputation (or target), so
the call raises a TypeError before any step is appended. -/
theorem setup_preprocessing_mean_log_zscore_type_error :
    setup_preprocessing true ⟨some (.str "mean"), some "log", some "zscore"⟩ =
      .error (.unexpectedKeyword "_imputation" "numeric_imputation") := by
  decide

/-- C10: setup copies the caller's data before any cleaning, index
promotion, or column-label coercion: running the intake prefix of setup
on a heap whose cell 0 holds the caller's object leaves that object
(its name, index, column labels and values) unchanged, whether the
intake succeeds or fails, for every input object, coercion map, index
column choice and seasonal-period hint. -/
theorem setup_intake_preserves_caller_data (d : PyObj) (toD : Int → Nat)
    (index : Option String) (sp : Option Nat) :
    ((setup_intake [d] 0 toD index sp).1).getD 0 .other = d := by
  cases d with
  | other => rfl
  | series s =>
    simp [setup_intake, heapAlloc, check_and_clean_data_heap,
      check_and_clean_index_heap, List.getD]
    split <;> rename_i heq <;> split at heq <;>
      (have h1 := congrArg Prod.fst heq; simp at h1; simp [← h1, List.getD])
  | frame f =>
    simp [setup_intake, heapAlloc, check_and_clean_data_heap,
      check_and_clean_index_heap, List.getD]
    split <;> rename_i heq <;> split at heq <;>
      (have h1 := congrArg Prod.fst heq; simp at h1; simp [← h1, List.getD])

end PyCaretTS
